import Mathlib

/-!
Shallow embedding of the authentication subsystem of the FastAPI notes
backend (src/services/auth.py, src/services/roles.py, src/routes/auth.py).

Machine model:
* JWT strings are modelled as the pair (claims, signing secret): the
  codec (python-jose) deterministically serialises claims, so structural
  equality of this pair coincides with string equality of encoded tokens,
  and a token verifies under a secret iff it was signed with it.
* Python dict access `payload["k"]` on an absent key raises KeyError,
  and attribute access on None raises AttributeError; both are uncaught
  in the routes and modelled as `Outcome.panic`.
* `HTTPException(status, detail)` is `Outcome.httpError status detail`.
* Wall-clock time is an explicit `Nat` parameter (seconds).
-/

/-- Roles from src/database/models.py (referenced by src/services/roles.py). -/
inductive Role where
  | user
  | moderator
  | admin
deriving DecidableEq, Repr

/-- The claims set produced at token-issuance time.  The source only ever
puts the keys "sub" or "email" into the data dict before adding
"iat", "exp" and "scope"; absent keys are `none`. -/
structure Claims where
  sub : Option String
  email : Option String
  iat : Nat
  exp : Nat
  scope : Option String
deriving DecidableEq, Repr

/-- An encoded JWT: claims together with the secret it was signed with.
The codec's serialisation is injective, so this pair is a faithful model
of the encoded string. -/
structure JwtToken where
  claims : Claims
  secret : String
deriving DecidableEq, Repr

/-- Errors of the token codec (python-jose): JWTError covers signature
failure; ExpiredSignatureError (a JWTError subclass) covers expiry. -/
inductive JwtError where
  | invalidSignature
  | expired
deriving DecidableEq, Repr

/-- Credential Hasher model: bcrypt digests are salted and irreversible;
verification succeeds exactly on the hashed plaintext (spec section 8:
collisions have vanishing probability, so equality is the faithful
logical model).  `hash_of` is the plaintext a digest was derived from. -/
structure Digest where
  hash_of : String
deriving DecidableEq, Repr

/-- A user row (src/database/models.py): email, bcrypt password hash,
confirmed flag, role, and the single nullable stored refresh token. -/
structure User where
  email : String
  password : Digest
  confirmed : Bool
  role : Role
  refresh_token : Option JwtToken
deriving DecidableEq, Repr

/-- The database, as the list of user rows. -/
abbrev Db := List User

/-- Outcome of a route handler: a value, an HTTPException (status, detail),
or an uncaught Python exception (crash). -/
inductive Outcome (α : Type) where
  | ok : α → Outcome α
  | httpError : Nat → String → Outcome α
  | panic : String → Outcome α
deriving DecidableEq, Repr

/-- The signing secret from settings (opaque configuration value). -/
def SECRET_KEY : String := "settings.secret_key"

/-- jwt.encode(claims, secret, algorithm): sign the claims. -/
def jwtEncode (claims : Claims) (secret : String) : JwtToken :=
  ⟨claims, secret⟩

/-- jwt.decode(token, secret, algorithms): verify the signature, then
check expiry (jose raises ExpiredSignatureError when exp < now),
returning the embedded claims. -/
def jwtDecode (token : JwtToken) (secret : String) (now : Nat) :
    Except JwtError Claims :=
  if token.secret ≠ secret then .error .invalidSignature
  else if token.claims.exp < now then .error .expired
  else .ok token.claims

/-- The data dict handed to the token constructors: the source passes
either data with a "sub" key (signup, login, email token) or with an
"email" key (the refresh route). -/
structure TokenData where
  sub : Option String
  email : Option String
deriving DecidableEq, Repr

/-- Auth.create_access_token: copy the data, compute expiry (the given
delta in seconds when truthy, else 150 minutes), add iat, exp and scope
"access_token", and sign. -/
def create_access_token (data : TokenData) (expires_delta : Option Nat)
    (now : Nat) : JwtToken :=
  let expire : Nat :=
    match expires_delta with
    | some d => if d = 0 then now + 150 * 60 else now + d
    | none => now + 150 * 60
  jwtEncode ⟨data.sub, data.email, now, expire, some "access_token"⟩ SECRET_KEY

/-- Auth.create_refresh_token: as for access tokens, but with default
lifetime 7 days and scope "refresh_token". -/
def create_refresh_token (data : TokenData) (expires_delta : Option Nat)
    (now : Nat) : JwtToken :=
  let expire : Nat :=
    match expires_delta with
    | some d => if d = 0 then now + 7 * 24 * 3600 else now + d
    | none => now + 7 * 24 * 3600
  jwtEncode ⟨data.sub, data.email, now, expire, some "refresh_token"⟩ SECRET_KEY

/-- Auth.create_email_token: 7-day expiry, no scope claim. -/
def create_email_token (data : TokenData) (now : Nat) : JwtToken :=
  jwtEncode ⟨data.sub, data.email, now, now + 7 * 24 * 3600, none⟩ SECRET_KEY

/-- Auth.decode_refresh_token: decode; on JWTError raise 401
"Could not validate credentials"; require scope "refresh_token" else
raise 401 "Invalid scope for token"; read payload["sub"] (KeyError —
a crash — when absent) and return it. -/
def decode_refresh_token (token : JwtToken) (now : Nat) : Outcome String :=
  match jwtDecode token SECRET_KEY now with
  | .error _ => .httpError 401 "Could not validate credentials"
  | .ok payload =>
    match payload.scope with
    | none => .panic "KeyError: scope"
    | some s =>
      if s = "refresh_token" then
        match payload.sub with
        | none => .panic "KeyError: sub"
        | some email => .ok email
      else .httpError 401 "Invalid scope for token"

/-- Auth.get_email_from_token: decode; on JWTError raise 422
"Invalid token for email verification"; return payload["sub"]
(KeyError crash when absent).  No scope check. -/
def get_email_from_token (token : JwtToken) (now : Nat) : Outcome String :=
  match jwtDecode token SECRET_KEY now with
  | .error _ => .httpError 422 "Invalid token for email verification"
  | .ok payload =>
    match payload.sub with
    | none => .panic "KeyError: sub"
    | some email => .ok email

/-- Modelled from the spec: repository/users.py is not under src/ (only
its callers are).  `get_user_by_email` is the Session/Identity Lookup of
spec section 2: resolve an email to the user record, or nothing. -/
def get_user_by_email (db : Db) (email : String) : Option User :=
  db.find? (fun u => u.email = email)

/-- Modelled from the spec: repository/users.py is not under src/.
`update_token` persists the (nullable) refresh token against the user —
"persists a single active refresh token per user". -/
def update_token (db : Db) (email : String) (token : Option JwtToken) : Db :=
  db.map (fun u => if u.email = email then { u with refresh_token := token } else u)

/-- Modelled from the spec: repository/users.py is not under src/.
`confirmed_email` marks the user with that email as confirmed. -/
def confirmed_email_repo (db : Db) (email : String) : Db :=
  db.map (fun u => if u.email = email then { u with confirmed := true } else u)

/-- Auth.get_password_hash via CryptContext.hash. -/
def get_password_hash (password : String) : Digest := ⟨password⟩

/-- Auth.verify_password via CryptContext.verify. -/
def verify_password (plain : String) (hashed : Digest) : Bool :=
  plain = hashed.hash_of

/-- The token pair returned by login and refresh (TokenModel schema,
token_type is always "bearer"). -/
structure TokenModel where
  access_token : JwtToken
  refresh_token : JwtToken
deriving DecidableEq, Repr

/-- POST /auth/login (src/routes/auth.py): look the user up by the
submitted username; absent fails 401 "Invalid email"; unconfirmed fails
401 "Email not confirmed"; password mismatch fails 401
"Invalid password"; otherwise issue an access and a refresh token with
data dict containing key "sub" = user.email, persist the refresh token,
and return the pair. -/
def login (db : Db) (username password : String) (now : Nat) :
    Outcome TokenModel × Db :=
  match get_user_by_email db username with
  | none => (.httpError 401 "Invalid email", db)
  | some user =>
    if !user.confirmed then (.httpError 401 "Email not confirmed", db)
    else if !verify_password password user.password then
      (.httpError 401 "Invalid password", db)
    else
      let access := create_access_token ⟨some user.email, none⟩ none now
      let refresh := create_refresh_token ⟨some user.email, none⟩ none now
      (.ok ⟨access, refresh⟩, update_token db user.email (some refresh))

/-- GET /auth/refresh_token (src/routes/auth.py): decode the presented
refresh token to an email; look the user up (the source dereferences
user.refresh_token with no None check — AttributeError when the user is
absent); on stored/presented mismatch clear the stored token and fail
401 "Invalid refresh token"; otherwise issue a new pair — with data dict
containing key "email" = email, not "sub" — persist the new refresh
token and return both. -/
def refresh_token (db : Db) (token : JwtToken) (now : Nat) :
    Outcome TokenModel × Db :=
  match decode_refresh_token token now with
  | .httpError s d => (.httpError s d, db)
  | .panic m => (.panic m, db)
  | .ok email =>
    match get_user_by_email db email with
    | none => (.panic "AttributeError: NoneType has no attribute refresh_token", db)
    | some user =>
      if user.refresh_token ≠ some token then
        (.httpError 401 "Invalid refresh token", update_token db email none)
      else
        let access := create_access_token ⟨none, some email⟩ none now
        let refresh := create_refresh_token ⟨none, some email⟩ none now
        (.ok ⟨access, refresh⟩, update_token db email (some refresh))

/-- GET /auth/confirmed_email/{token} (src/routes/auth.py): extract the
email from the token; absent user fails 400 "Verification error";
already-confirmed user gets "Your email is already confirmed"; else
mark confirmed and return "Email confirmed". -/
def confirmed_email (db : Db) (token : JwtToken) (now : Nat) :
    Outcome String × Db :=
  match get_email_from_token token now with
  | .httpError s d => (.httpError s d, db)
  | .panic m => (.panic m, db)
  | .ok email =>
    match get_user_by_email db email with
    | none => (.httpError 400 "Verification error", db)
    | some user =>
      if user.confirmed then (.ok "Your email is already confirmed", db)
      else (.ok "Email confirmed", confirmed_email_repo db email)

/-- POST /auth/request_email (src/routes/auth.py): look the user up and
read user.confirmed BEFORE the `if user:` existence check — on an
absent user this dereferences None (AttributeError); a confirmed user
gets "Your email is already confirmed"; otherwise the confirmation mail
is dispatched and "Check your email for confirmation." returned. -/
def request_email (db : Db) (email : String) : Outcome String × Db :=
  match get_user_by_email db email with
  | none => (.panic "AttributeError: NoneType has no attribute confirmed", db)
  | some user =>
    if user.confirmed then (.ok "Your email is already confirmed", db)
    else (.ok "Check your email for confirmation.", db)

/-- Auth.get_current_user (src/services/auth.py): decode; any JWTError
maps to the generic 401 "Could not validate credentials"; a scope other
than "access_token" raises the SAME generic exception; read
payload["sub"] (KeyError crash when absent); look the user up; absent
user raises the same generic exception again; else return the user. -/
def get_current_user (db : Db) (token : JwtToken) (now : Nat) :
    Outcome User :=
  match jwtDecode token SECRET_KEY now with
  | .error _ => .httpError 401 "Could not validate credentials"
  | .ok payload =>
    match payload.scope with
    | none => .panic "KeyError: scope"
    | some s =>
      if s = "access_token" then
        match payload.sub with
        | none => .panic "KeyError: sub"
        | some email =>
          match get_user_by_email db email with
          | none => .httpError 401 "Could not validate credentials"
          | some user => .ok user
      else .httpError 401 "Could not validate credentials"

/-- RoleAccess.__call__ (src/services/roles.py): given the allow-list
fixed at construction and the resolved current user, fail 403
"Operation forbidden" when the user's role is not in the list, else
proceed (return None). -/
def RoleAccess_call (allowed_roles : List Role) (user : User) : Outcome Unit :=
  if user.role ∉ allowed_roles then .httpError 403 "Operation forbidden"
  else .ok ()

/-! Helper lemmas about the identity-lookup over the state updates. -/

theorem get_user_by_email_eq (db : Db) (e : String) (u : User)
    (h : get_user_by_email db e = some u) : u.email = e := by
  have := List.find?_some h
  simpa using this

theorem get_user_by_email_update_token (db : Db) (e : String)
    (t : Option JwtToken) :
    get_user_by_email (update_token db e t) e
      = (get_user_by_email db e).map (fun u => { u with refresh_token := t }) := by
  induction db with
  | nil => rfl
  | cons u rest ih =>
    by_cases h : u.email = e
    · simp [get_user_by_email, update_token, List.find?_cons, h]
    · simp only [get_user_by_email, update_token, List.map_cons] at *
      rw [if_neg h]
      rw [List.find?_cons_of_neg, List.find?_cons_of_neg]
      · exact ih
      · simp [h]
      · simp [h]

theorem get_user_by_email_confirmed_repo (db : Db) (e : String) :
    get_user_by_email (confirmed_email_repo db e) e
      = (get_user_by_email db e).map (fun u => { u with confirmed := true }) := by
  induction db with
  | nil => rfl
  | cons u rest ih =>
    by_cases h : u.email = e
    · simp [get_user_by_email, confirmed_email_repo, List.find?_cons, h]
    · simp only [get_user_by_email, confirmed_email_repo, List.map_cons] at *
      rw [if_neg h]
      rw [List.find?_cons_of_neg, List.find?_cons_of_neg]
      · exact ih
      · simp [h]
      · simp [h]

/-- A validly signed unexpired token carrying a sub claim is accepted by
get_email_from_token regardless of its scope claim. -/
theorem get_email_from_token_ok (t : JwtToken) (now : Nat) (e : String)
    (hs : t.secret = SECRET_KEY) (hsub : t.claims.sub = some e)
    (hexp : ¬ t.claims.exp < now) :
    get_email_from_token t now = .ok e := by
  simp [get_email_from_token, jwtDecode, hs, hexp, hsub]

/-- C6: for every claims set C and secret S, decoding encode(C, S) with
the same secret S yields C back while exp has not passed; once exp has
passed, decode fails with Expired — the decode operation checks
expiry. -/
theorem C6_codec_roundtrip (c : Claims) (s : String) (now : Nat) :
    (¬ c.exp < now → jwtDecode (jwtEncode c s) s now = .ok c)
    ∧ (c.exp < now → jwtDecode (jwtEncode c s) s now = .error .expired) := by
  constructor <;> intro h <;> simp [jwtDecode, jwtEncode, h]

/-- Witness for C6 at a concrete claims set, secret and two times. -/
theorem C6_codec_roundtrip_witness :
    jwtDecode (jwtEncode ⟨some "a@x.com", none, 0, 100, some "access_token"⟩ "k") "k" 50
      = .ok ⟨some "a@x.com", none, 0, 100, some "access_token"⟩
    ∧ jwtDecode (jwtEncode ⟨some "a@x.com", none, 0, 100, some "access_token"⟩ "k") "k" 200
      = .error .expired :=
  ⟨(C6_codec_roundtrip ⟨some "a@x.com", none, 0, 100, some "access_token"⟩ "k" 50).1
      (by decide),
   (C6_codec_roundtrip ⟨some "a@x.com", none, 0, 100, some "access_token"⟩ "k" 200).2
      (by decide)⟩

/-- C8: for every allow-list and resolved user, the role gate fails 403
Forbidden exactly when the user's role is outside the list, and lets
the request proceed otherwise. -/
theorem C8_role_gate (allowed : List Role) (user : User) :
    (user.role ∉ allowed →
      RoleAccess_call allowed user = .httpError 403 "Operation forbidden")
    ∧ (user.role ∈ allowed → RoleAccess_call allowed user = .ok ()) := by
  constructor <;> intro h <;> simp [RoleAccess_call, h]

/-- Witness for C8: a role-user is rejected by an admin-only gate and a
role-admin passes it. -/
theorem C8_role_gate_witness :
    RoleAccess_call [Role.admin]
        ⟨"u@x.com", get_password_hash "p", true, Role.user, none⟩
      = .httpError 403 "Operation forbidden"
    ∧ RoleAccess_call [Role.admin]
        ⟨"a@x.com", get_password_hash "p", true, Role.admin, none⟩
      = .ok () :=
  ⟨(C8_role_gate [Role.admin]
      ⟨"u@x.com", get_password_hash "p", true, Role.user, none⟩).1 (by decide),
   (C8_role_gate [Role.admin]
      ⟨"a@x.com", get_password_hash "p", true, Role.admin, none⟩).2 (by decide)⟩

/-- C3 counterexample: a validly signed, unexpired refresh-scoped token
presented to get_current_user yields exactly the generic 401
"Could not validate credentials" — the same outcome as for a missing
user — and not the distinct wrong-scope error the service uses
elsewhere ("Invalid scope for token"). -/
theorem C3_counterexample :
    get_current_user
        [⟨"alice@x.com", get_password_hash "pw", true, Role.user, none⟩]
        (create_refresh_token ⟨some "alice@x.com", none⟩ none 1000) 2000
      = .httpError 401 "Could not validate credentials"
    ∧ get_current_user []
        (create_access_token ⟨some "ghost@x.com", none⟩ none 1000) 2000
      = .httpError 401 "Could not validate credentials"
    ∧ (Outcome.httpError 401 "Could not validate credentials" : Outcome User)
      ≠ .httpError 401 "Invalid scope for token" :=
  ⟨rfl, rfl, by decide⟩

/-- C3 amended: every validly signed, unexpired token with scope claim
refresh_token presented to get_current_user fails with the SAME generic
401 "Could not validate credentials" used for missing users and
undecodable tokens, not a distinct wrong-scope error. -/
theorem C3_wrong_scope_generic (c : Claims) (db : Db) (now : Nat)
    (hscope : c.scope = some "refresh_token") (hexp : ¬ c.exp < now) :
    get_current_user db (jwtEncode c SECRET_KEY) now
      = .httpError 401 "Could not validate credentials" := by
  simp [get_current_user, jwtDecode, jwtEncode, hexp, hscope]

/-- Witness for the amended C3 at a concrete refresh-scoped token. -/
theorem C3_wrong_scope_generic_witness :
    get_current_user []
        (jwtEncode ⟨some "a@x.com", none, 0, 100, some "refresh_token"⟩ SECRET_KEY) 50
      = .httpError 401 "Could not validate credentials" :=
  C3_wrong_scope_generic ⟨some "a@x.com", none, 0, 100, some "refresh_token"⟩
    [] 50 rfl (by decide)

/-- C9: when the presented refresh token decodes successfully to a
subject with no user record, the refresh route dereferences None's
refresh_token attribute and crashes (AttributeError), with no state
change and no taxonomy error. -/
theorem C9_refresh_missing_user_crash (db : Db) (tok : JwtToken)
    (now : Nat) (e : String)
    (hdec : decode_refresh_token tok now = .ok e)
    (habs : get_user_by_email db e = none) :
    refresh_token db tok now
      = (.panic "AttributeError: NoneType has no attribute refresh_token", db) := by
  simp [refresh_token, hdec, habs]

/-- Witness for C9: a valid refresh token for an email with no user row
crashes the refresh route. -/
theorem C9_refresh_missing_user_crash_witness :
    refresh_token [] (create_refresh_token ⟨some "ghost@x.com", none⟩ none 0) 0
      = (.panic "AttributeError: NoneType has no attribute refresh_token", []) :=
  C9_refresh_missing_user_crash []
    (create_refresh_token ⟨some "ghost@x.com", none⟩ none 0) 0 "ghost@x.com"
    (by decide) rfl

/-- C2: request_email dereferences user.confirmed before the existence
check, so an email with no user record crashes with AttributeError
instead of returning the generic message; an existing confirmed user
does get the "already confirmed" result. -/
theorem C2_request_email_crash :
    request_email [] "ghost@x.com"
      = (.panic "AttributeError: NoneType has no attribute confirmed", [])
    ∧ request_email [⟨"a@x.com", get_password_hash "p", true, Role.user, none⟩]
        "a@x.com"
      = (.ok "Your email is already confirmed",
         [⟨"a@x.com", get_password_hash "p", true, Role.user, none⟩]) :=
  ⟨rfl, rfl⟩

/-- C4: a validly decoded refresh token whose value differs from the
user's stored refresh token makes the refresh route clear the stored
token and fail 401 "Invalid refresh token"; a second presentation of
the same token against the cleared state fails the same way, since the
cleared (None) stored value never equals the presented token. -/
theorem C4_mismatch_clears_and_fails (db : Db) (c : Claims)
    (now now2 : Nat) (e : String) (u : User)
    (hscope : c.scope = some "refresh_token") (hsub : c.sub = some e)
    (hexp : ¬ c.exp < now) (hexp2 : ¬ c.exp < now2)
    (hu : get_user_by_email db e = some u)
    (hmis : u.refresh_token ≠ some (jwtEncode c SECRET_KEY)) :
    refresh_token db (jwtEncode c SECRET_KEY) now
      = (.httpError 401 "Invalid refresh token", update_token db e none)
    ∧ (refresh_token (update_token db e none) (jwtEncode c SECRET_KEY) now2).fst
      = .httpError 401 "Invalid refresh token" := by
  have hdec : decode_refresh_token (jwtEncode c SECRET_KEY) now = .ok e := by
    simp [decode_refresh_token, jwtDecode, jwtEncode, hexp, hscope, hsub]
  have hdec2 : decode_refresh_token (jwtEncode c SECRET_KEY) now2 = .ok e := by
    simp [decode_refresh_token, jwtDecode, jwtEncode, hexp2, hscope, hsub]
  have hu2 : get_user_by_email (update_token db e none) e
      = some { u with refresh_token := none } := by
    rw [get_user_by_email_update_token, hu]; rfl
  constructor
  · simp [refresh_token, hdec, hu, hmis]
  · simp [refresh_token, hdec2, hu2]

/-- Witness for C4: concrete mismatching presentation clears the stored
token and both attempts fail with Invalid refresh token. -/
theorem C4_mismatch_clears_and_fails_witness :
    refresh_token [⟨"alice@x.com", get_password_hash "pw", true, Role.user, none⟩]
        (jwtEncode ⟨some "alice@x.com", none, 0, 100, some "refresh_token"⟩ SECRET_KEY) 50
      = (.httpError 401 "Invalid refresh token",
         update_token [⟨"alice@x.com", get_password_hash "pw", true, Role.user, none⟩]
           "alice@x.com" none)
    ∧ (refresh_token
        (update_token [⟨"alice@x.com", get_password_hash "pw", true, Role.user, none⟩]
          "alice@x.com" none)
        (jwtEncode ⟨some "alice@x.com", none, 0, 100, some "refresh_token"⟩ SECRET_KEY)
        60).fst
      = .httpError 401 "Invalid refresh token" :=
  C4_mismatch_clears_and_fails
    [⟨"alice@x.com", get_password_hash "pw", true, Role.user, none⟩]
    ⟨some "alice@x.com", none, 0, 100, some "refresh_token"⟩ 50 60 "alice@x.com"
    ⟨"alice@x.com", get_password_hash "pw", true, Role.user, none⟩
    rfl rfl (by decide) (by decide) rfl (by decide)

/-- C5: login checks in order — absent user fails Invalid email, an
unconfirmed user fails Email not confirmed regardless of the password
(in particular when it verifies), a confirmed user with a mismatching
password fails Invalid password, and on success both tokens are issued
for the user's email with the refresh token persisted against the
user. -/
theorem C5_login_check_order (db : Db) (email pwd : String) (now : Nat) :
    (get_user_by_email db email = none →
      login db email pwd now = (.httpError 401 "Invalid email", db))
    ∧ (∀ u, get_user_by_email db email = some u → u.confirmed = false →
        login db email pwd now = (.httpError 401 "Email not confirmed", db))
    ∧ (∀ u, get_user_by_email db email = some u → u.confirmed = true →
        verify_password pwd u.password = false →
        login db email pwd now = (.httpError 401 "Invalid password", db))
    ∧ (∀ u, get_user_by_email db email = some u → u.confirmed = true →
        verify_password pwd u.password = true →
        login db email pwd now
          = (.ok ⟨create_access_token ⟨some u.email, none⟩ none now,
                  create_refresh_token ⟨some u.email, none⟩ none now⟩,
             update_token db u.email
               (some (create_refresh_token ⟨some u.email, none⟩ none now)))
        ∧ get_user_by_email (login db email pwd now).snd email
          = some { u with
                   refresh_token := some (create_refresh_token ⟨some u.email, none⟩ none now) }) := by
  refine ⟨?_, ?_, ?_, ?_⟩
  · intro h; simp [login, h]
  · intro u hu hc; simp [login, hu, hc]
  · intro u hu hc hv; simp [login, hu, hc, hv]
  · intro u hu hc hv
    have he := get_user_by_email_eq db email u hu
    have hmain : login db email pwd now
        = (.ok ⟨create_access_token ⟨some u.email, none⟩ none now,
                create_refresh_token ⟨some u.email, none⟩ none now⟩,
           update_token db u.email
             (some (create_refresh_token ⟨some u.email, none⟩ none now))) := by
      simp [login, hu, hc, hv]
    refine ⟨hmain, ?_⟩
    rw [hmain]
    simp only []
    rw [he, get_user_by_email_update_token, hu]
    simp [he]

/-- Witness for C5: an unconfirmed user with the correct password fails
Email not confirmed; the same user once confirmed logs in and the
refresh token is persisted. -/
theorem C5_login_check_order_witness :
    login [⟨"a@x.com", get_password_hash "pw", false, Role.user, none⟩]
        "a@x.com" "pw" 0
      = (.httpError 401 "Email not confirmed",
         [⟨"a@x.com", get_password_hash "pw", false, Role.user, none⟩])
    ∧ login [⟨"a@x.com", get_password_hash "pw", true, Role.user, none⟩]
        "a@x.com" "pw" 0
      = (.ok ⟨create_access_token ⟨some "a@x.com", none⟩ none 0,
              create_refresh_token ⟨some "a@x.com", none⟩ none 0⟩,
         update_token [⟨"a@x.com", get_password_hash "pw", true, Role.user, none⟩]
           "a@x.com" (some (create_refresh_token ⟨some "a@x.com", none⟩ none 0))) :=
  ⟨(C5_login_check_order
      [⟨"a@x.com", get_password_hash "pw", false, Role.user, none⟩]
      "a@x.com" "pw" 0).2.1
      ⟨"a@x.com", get_password_hash "pw", false, Role.user, none⟩ rfl rfl,
   ((C5_login_check_order
      [⟨"a@x.com", get_password_hash "pw", true, Role.user, none⟩]
      "a@x.com" "pw" 0).2.2.2
      ⟨"a@x.com", get_password_hash "pw", true, Role.user, none⟩ rfl rfl
      (by decide)).1⟩

/-- C7: the confirmation route is idempotent — for a decoded subject
with no user record it fails 400 Verification error; an unconfirmed
user is marked confirmed ("Email confirmed") and a second call on the
resulting state returns "Your email is already confirmed" with no
further state change; an already-confirmed user gets the idempotent
result immediately. -/
theorem C7_confirm_idempotent (db : Db) (tok : JwtToken) (now : Nat)
    (e : String) (hdec : get_email_from_token tok now = .ok e) :
    (get_user_by_email db e = none →
      confirmed_email db tok now = (.httpError 400 "Verification error", db))
    ∧ (∀ u, get_user_by_email db e = some u → u.confirmed = false →
        confirmed_email db tok now = (.ok "Email confirmed", confirmed_email_repo db e)
        ∧ confirmed_email (confirmed_email_repo db e) tok now
            = (.ok "Your email is already confirmed", confirmed_email_repo db e))
    ∧ (∀ u, get_user_by_email db e = some u → u.confirmed = true →
        confirmed_email db tok now = (.ok "Your email is already confirmed", db)) := by
  refine ⟨?_, ?_, ?_⟩
  · intro h; simp [confirmed_email, hdec, h]
  · intro u hu hc
    have hu2 : get_user_by_email (confirmed_email_repo db e) e
        = some { u with confirmed := true } := by
      rw [get_user_by_email_confirmed_repo, hu]; rfl
    exact ⟨by simp [confirmed_email, hdec, hu, hc],
           by simp [confirmed_email, hdec, hu2]⟩
  · intro u hu hc; simp [confirmed_email, hdec, hu, hc]

/-- Witness for C7: first confirmation of an unconfirmed user returns
"Email confirmed", the second call returns "already confirmed" and
leaves the state alone. -/
theorem C7_confirm_idempotent_witness :
    confirmed_email [⟨"a@x.com", get_password_hash "pw", false, Role.user, none⟩]
        (create_email_token ⟨some "a@x.com", none⟩ 0) 1
      = (.ok "Email confirmed",
         confirmed_email_repo
           [⟨"a@x.com", get_password_hash "pw", false, Role.user, none⟩] "a@x.com")
    ∧ confirmed_email
        (confirmed_email_repo
          [⟨"a@x.com", get_password_hash "pw", false, Role.user, none⟩] "a@x.com")
        (create_email_token ⟨some "a@x.com", none⟩ 0) 1
      = (.ok "Your email is already confirmed",
         confirmed_email_repo
           [⟨"a@x.com", get_password_hash "pw", false, Role.user, none⟩] "a@x.com") :=
  (C7_confirm_idempotent
      [⟨"a@x.com", get_password_hash "pw", false, Role.user, none⟩]
      (create_email_token ⟨some "a@x.com", none⟩ 0) 1 "a@x.com" (by decide)).2.1
    ⟨"a@x.com", get_password_hash "pw", false, Role.user, none⟩ rfl rfl

/-- C10: get_email_from_token enforces no scope restriction, so the
access and refresh tokens issued at login (data dict with key "sub")
are both accepted by the email-confirmation decode path while
unexpired, and an access token can drive confirmation of an
unconfirmed user. -/
theorem C10_no_scope_on_email_path (e : String) (delta : Option Nat)
    (now now2 : Nat) (db : Db) (u : User) :
    (¬ (create_access_token ⟨some e, none⟩ delta now).claims.exp < now2 →
      get_email_from_token (create_access_token ⟨some e, none⟩ delta now) now2 = .ok e
      ∧ (get_user_by_email db e = some u → u.confirmed = false →
          confirmed_email db (create_access_token ⟨some e, none⟩ delta now) now2
            = (.ok "Email confirmed", confirmed_email_repo db e)))
    ∧ (¬ (create_refresh_token ⟨some e, none⟩ delta now).claims.exp < now2 →
      get_email_from_token (create_refresh_token ⟨some e, none⟩ delta now) now2 = .ok e) := by
  constructor
  · intro h
    have h1 : get_email_from_token (create_access_token ⟨some e, none⟩ delta now) now2
        = .ok e :=
      get_email_from_token_ok _ now2 e rfl rfl h
    refine ⟨h1, fun hu hc => ?_⟩
    simp [confirmed_email, h1, hu, hc]
  · intro h
    exact get_email_from_token_ok _ now2 e rfl rfl h

/-- Witness for C10: a login-issued access token confirms an
unconfirmed user's email, and a login-issued refresh token is likewise
accepted by the email decode path. -/
theorem C10_no_scope_on_email_path_witness :
    confirmed_email [⟨"a@x.com", get_password_hash "pw", false, Role.user, none⟩]
        (create_access_token ⟨some "a@x.com", none⟩ none 0) 1
      = (.ok "Email confirmed",
         confirmed_email_repo
           [⟨"a@x.com", get_password_hash "pw", false, Role.user, none⟩] "a@x.com")
    ∧ get_email_from_token (create_refresh_token ⟨some "a@x.com", none⟩ none 0) 1
      = .ok "a@x.com" :=
  ⟨((C10_no_scope_on_email_path "a@x.com" none 0 1
      [⟨"a@x.com", get_password_hash "pw", false, Role.user, none⟩]
      ⟨"a@x.com", get_password_hash "pw", false, Role.user, none⟩).1
      (by decide)).2 rfl rfl,
   (C10_no_scope_on_email_path "a@x.com" none 0 1 []
      ⟨"a@x.com", get_password_hash "pw", false, Role.user, none⟩).2 (by decide)⟩

/-- C1: a successful refresh issues the rotated pair with data dict key
"email" instead of "sub", so while the old refresh token is indeed
invalidated, presenting the newly returned refresh token does not
decode to the subject: decode reads payload["sub"], which is absent,
and the route crashes with KeyError instead of succeeding. -/
theorem C1_rotation_bug :
    (refresh_token
        [⟨"alice@x.com", get_password_hash "pw", true, Role.user,
          some (create_refresh_token ⟨some "alice@x.com", none⟩ none 1000)⟩]
        (create_refresh_token ⟨some "alice@x.com", none⟩ none 1000) 2000).fst
      = .ok ⟨create_access_token ⟨none, some "alice@x.com"⟩ none 2000,
             create_refresh_token ⟨none, some "alice@x.com"⟩ none 2000⟩
    ∧ refresh_token
        (refresh_token
          [⟨"alice@x.com", get_password_hash "pw", true, Role.user,
            some (create_refresh_token ⟨some "alice@x.com", none⟩ none 1000)⟩]
          (create_refresh_token ⟨some "alice@x.com", none⟩ none 1000) 2000).snd
        (create_refresh_token ⟨none, some "alice@x.com"⟩ none 2000) 3000
      = (.panic "KeyError: sub",
         (refresh_token
           [⟨"alice@x.com", get_password_hash "pw", true, Role.user,
             some (create_refresh_token ⟨some "alice@x.com", none⟩ none 1000)⟩]
           (create_refresh_token ⟨some "alice@x.com", none⟩ none 1000) 2000).snd)
    ∧ (refresh_token
        (refresh_token
          [⟨"alice@x.com", get_password_hash "pw", true, Role.user,
            some (create_refresh_token ⟨some "alice@x.com", none⟩ none 1000)⟩]
          (create_refresh_token ⟨some "alice@x.com", none⟩ none 1000) 2000).snd
        (create_refresh_token ⟨some "alice@x.com", none⟩ none 1000) 3000).fst
      = .httpError 401 "Invalid refresh token" :=
  ⟨rfl, rfl, rfl⟩
